import Mathlib

/-!
Verification of the weagle CLI command-construction and execution routines.

The Python sources are shallowly embedded:
* file-system existence checks become an oracle `fs : String → Bool`;
* `subprocess.run` becomes an oracle `os : String → Int` giving the exit
  code of a command, together with an explicit trace of `Event`s
  (console logs, plain prints, horizontal rules, and process spawns);
* Python `Path` values are modelled as their rendered strings;
* a Python function that can raise returns `Except`.
-/

namespace Weagle

/-- Observable side effects of the CLI routines: rich-console log lines
(message, style), the final rule line, a blank print, plain prints, and
child-process spawns. -/
inductive Event where
  | log : String → String → Event
  | rule : String → Event
  | printBlank : Event
  | printMsg : String → Event
  | spawn : String → Event
deriving DecidableEq

/-- True exactly on process-spawn events. -/
def Event.isSpawn : Event → Bool
  | .spawn _ => true
  | _ => false

/-- Model of `subprocess.CompletedProcess`: the command that was run and
its return code. -/
structure CompletedProcess where
  cmd : String
  returncode : Int
deriving DecidableEq

/-- Ways a routine can abort: `typer.Exit(code)`, an uncaught
`ValueError` from truthiness parsing, or `subprocess.CalledProcessError`
raised by `run(..., check=True)`. -/
inductive RunErr where
  | exit : Nat → RunErr
  | valueError : String → RunErr
  | calledProcessError : Int → RunErr
deriving DecidableEq

/-- Model of the Python string method lower, character by character (the
inputs of interest are ASCII). -/
def strLower (s : String) : String :=
  String.mk (s.data.map Char.toLower)

namespace Main

/-- Embeds `strtobool` of `src/weagle/main.py` (lines 77-98): lowercase the
input, accept true/t/yes/y/1 and false/f/no/n/0, raise `ValueError`
otherwise. -/
def strtobool (val : String) : Except String Bool :=
  let val := strLower val
  if val ∈ ["true", "t", "yes", "y", "1"] then Except.ok true
  else if val ∈ ["false", "f", "no", "n", "0"] then Except.ok false
  else Except.error (val ++ " is not a valid boolean value")

/-- Embeds `is_truthy` of `src/weagle/main.py` (lines 101-118) restricted to
the argument shapes that occur for environment-variable reads
(`str` or `None`; the `bool` branch of the Python code cannot fire there). -/
def is_truthy (arg : Option String) : Except String Bool :=
  match arg with
  | none => Except.ok false
  | some s => strtobool s

/-- Embeds `docker_compose_cmd` of `src/weagle/main.py` (lines 166-205).
The ambient `ENVVARS.get("DOCKER_COMPOSE_WITH_HASH", None)` read becomes the
explicit argument `envWithHash`.  Note that, as in the source, the two
branches of the `DOCKER_COMPOSE_WITH_HASH` conditional build the very same
hyphenated string. -/
def docker_compose_cmd (envWithHash : Option String) (compose_action : String)
    (docker_compose_file : String) (services : List String) (verbose : Nat)
    (extra_options : String) (command : String) (compose_name : String) :
    Except String String := do
  let withHash ← is_truthy envWithHash
  let exec_cmd :=
    if withHash then
      "docker-compose --project-name " ++ compose_name ++ " -f " ++ docker_compose_file
    else
      "docker-compose --project-name " ++ compose_name ++ " -f " ++ docker_compose_file
  let exec_cmd := if verbose ≠ 0 then exec_cmd ++ " --verbose" else exec_cmd
  let exec_cmd := exec_cmd ++ " " ++ compose_action
  let exec_cmd := if extra_options ≠ "" then exec_cmd ++ " " ++ extra_options else exec_cmd
  let exec_cmd := if services ≠ [] then exec_cmd ++ " " ++ String.intercalate " " services else exec_cmd
  let exec_cmd := if command ≠ "" then exec_cmd ++ " " ++ command else exec_cmd
  return exec_cmd

/-- Embeds `run_cmd` of `src/weagle/main.py` (lines 121-163): log the
command, run it (`check=False`), then log success for exit code 0 and
failure otherwise, and return the `CompletedProcess` unconditionally.
The environment/cwd/timeout/shell/capture arguments do not influence the
modelled observables and are absorbed into the oracle `os`. -/
def runCmd (os : String → Int) (exec_cmd : String) (task_name : String) :
    List Event × CompletedProcess :=
  let result : CompletedProcess := { cmd := exec_cmd, returncode := os exec_cmd }
  let task_name := if task_name ≠ "" then task_name else exec_cmd
  let verdict :=
    if result.returncode = 0 then
      Event.log (task_name ++ " completed successfully") "good"
    else
      Event.log (task_name ++ " failed") "error"
  ([Event.log ("Running command: " ++ exec_cmd) "info",
    Event.spawn exec_cmd,
    verdict,
    Event.rule ("End of task: [b i]" ++ task_name),
    Event.printBlank],
   result)

/-- Embeds `run_docker_compose_cmd` of `src/weagle/main.py` (lines 208-262):
if the compose file does not exist, log the error and raise
`typer.Exit(1)`; otherwise build the command with `compose_name="weagle"`
and execute it through `run_cmd`. -/
def run_docker_compose_cmd (fs : String → Bool) (os : String → Int)
    (envWithHash : Option String) (filename : String) (action : String)
    (services : List String) (verbose : Nat) (command : String)
    (extra_options : String) (task_name : String) :
    List Event × Except RunErr CompletedProcess :=
  if fs filename = false then
    ([Event.log ("File not found: [orange1 i]" ++ filename) "error"],
     Except.error (RunErr.exit 1))
  else
    match docker_compose_cmd envWithHash action filename services verbose
        extra_options command "weagle" with
    | Except.error m => ([], Except.error (RunErr.valueError m))
    | Except.ok exec_cmd =>
      let r := runCmd os exec_cmd task_name
      (r.1, Except.ok r.2)

end Main

namespace MainOld

/-- Embeds `strtobool` of `src/weagle/main.old.py` (lines 189-204), which in
contrast to `main.py` also accepts the values on/off. -/
def strtobool (val : String) : Except String Bool :=
  let val := strLower val
  if val ∈ ["y", "yes", "t", "true", "on", "1"] then Except.ok true
  else if val ∈ ["n", "no", "f", "false", "off", "0"] then Except.ok false
  else Except.error ("invalid truth value " ++ val)

/-- Embeds `is_truthy` of `src/weagle/main.old.py` (lines 207-224), same
restriction to environment-variable argument shapes as `Main.is_truthy`. -/
def is_truthy (arg : Option String) : Except String Bool :=
  match arg with
  | none => Except.ok false
  | some s => strtobool s

/-- Embeds `docker_compose_cmd` of `src/weagle/main.old.py`
(lines 227-266); here the `DOCKER_COMPOSE_WITH_HASH` conditional really
selects between the hyphenated and the space-separated invocation. -/
def docker_compose_cmd (envWithHash : Option String) (compose_action : String)
    (docker_compose_file : String) (services : List String) (verbose : Nat)
    (extra_options : String) (command : String) (compose_name : String) :
    Except String String := do
  let withHash ← is_truthy envWithHash
  let exec_cmd :=
    if withHash then
      "docker-compose --project-name " ++ compose_name ++ " -f " ++ docker_compose_file
    else
      "docker compose --project-name " ++ compose_name ++ " -f " ++ docker_compose_file
  let exec_cmd := if verbose ≠ 0 then exec_cmd ++ " --verbose" else exec_cmd
  let exec_cmd := exec_cmd ++ " " ++ compose_action
  let exec_cmd := if extra_options ≠ "" then exec_cmd ++ " " ++ extra_options else exec_cmd
  let exec_cmd := if services ≠ [] then exec_cmd ++ " " ++ String.intercalate " " services else exec_cmd
  let exec_cmd := if command ≠ "" then exec_cmd ++ " " ++ command else exec_cmd
  return exec_cmd

end MainOld

namespace DockerUtils

/-- Embeds `run_docker_compose_cmd` of `src/weagle/utils/docker_utils.py`
(lines 6-12).  The source performs no file-existence check at all, which is
why the `fs` oracle is received but never consulted; the service list and
extra options are interpolated unconditionally, and the command is run with
`shell=True, check=True`, so a non-zero exit raises `CalledProcessError`
and nothing is returned. -/
def run_docker_compose_cmd (fs : String → Bool) (os : String → Int)
    (action : String) (filename : String) (services : List String)
    (verbose : Bool) (task_name : String) (extra_options : String) :
    List Event × Except RunErr Unit :=
  let _ := fs
  let _ := task_name
  let service_list := if services ≠ [] then String.intercalate " " services else ""
  let cmd := "docker-compose -f " ++ filename ++ " " ++ action ++ " " ++ service_list
    ++ " " ++ extra_options
  let evs := if verbose then [Event.printMsg ("Running command: " ++ cmd)] else []
  let rc := os cmd
  if rc = 0 then (evs ++ [Event.spawn cmd], Except.ok ())
  else (evs ++ [Event.spawn cmd], Except.error (RunErr.calledProcessError rc))

/-- Embeds `run_cmd` of `src/weagle/utils/docker_utils.py` (lines 15-18):
optional print, then `run(exec_cmd, shell=True, check=True)`, so a non-zero
exit raises `CalledProcessError`; no success or failure logging happens. -/
def runCmd (os : String → Int) (exec_cmd : String) (task_name : String)
    (verbose : Bool) : List Event × Except RunErr Unit :=
  let evs := if verbose then [Event.printMsg (task_name ++ ": " ++ exec_cmd)] else []
  let rc := os exec_cmd
  if rc = 0 then (evs ++ [Event.spawn exec_cmd], Except.ok ())
  else (evs ++ [Event.spawn exec_cmd], Except.error (RunErr.calledProcessError rc))

end DockerUtils

namespace DockerService

/-- Embeds the command construction of `DockerService.manage_network` in
`src/weagle/docker/services/docker_service.py` (lines 48-53); the built
string is then handed to `docker_utils.run_cmd` (the `verbose` argument
only toggles that printing). -/
def manage_network (action : String) (name : String) (driver : String)
    (subnet : String) : String :=
  let exec_cmd := "docker network " ++ action
  if action = "create" then
    exec_cmd ++ " --driver " ++ driver ++ " --subnet " ++ subnet ++ " " ++ name
  else
    exec_cmd

end DockerService

namespace Spec

/-- Modelled from the spec: CommandBuilder concatenates, in fixed order,
the base invocation token, the project-name flag, the file flag, the
optional verbose flag (only if verbose is true), the action token, the
extra flags (if non-empty), the space-joined services (if non-empty), and
the sub-command (if non-empty). -/
def composeCmdSpec (base : String) (name : String) (file : String)
    (verbose : Bool) (action : String) (extra : String)
    (services : List String) (sub : String) : String :=
  base
  ++ (" --project-name " ++ name)
  ++ (" -f " ++ file)
  ++ (if verbose then " --verbose" else "")
  ++ (" " ++ action)
  ++ (if extra ≠ "" then " " ++ extra else "")
  ++ (if services ≠ [] then " " ++ String.intercalate " " services else "")
  ++ (if sub ≠ "" then " " ++ sub else "")

end Spec

end Weagle

namespace Weagle

/-- Split a character list at every space, keeping empty pieces. -/
def splitCh : List Char → List (List Char)
  | [] => [[]]
  | c :: cs =>
    if c = ' ' then [] :: splitCh cs
    else
      match splitCh cs with
      | [] => [[c]]
      | t :: ts => (c :: t) :: ts

/-- Number of whitespace-delimited occurrences of the token `t` in the
character list `s`. -/
def ctL (t : List Char) (s : List Char) : Nat :=
  ((splitCh s).filter (fun w => w == t)).length

/-- Number of whitespace-delimited occurrences of the token `t` in the
string `s`. -/
def countTok (t s : String) : Nat := ctL t.data s.data

/-- True when the character list contains two adjacent spaces. -/
def hasDoubleSpace : List Char → Bool
  | [] => false
  | [_] => false
  | a :: b :: rest => (a == ' ' && b == ' ') || hasDoubleSpace (b :: rest)

/-- The command string built by the compose builders, with the base
invocation token abstracted: both builders produce exactly this chain of
appends (proved below), differing only in the base token. -/
def composeStrWith (base : String) (a f : String) (svcs : List String)
    (v : Nat) (e c n : String) : String :=
  let s := base ++ " --project-name " ++ n ++ " -f " ++ f
  let s := if v ≠ 0 then s ++ " --verbose" else s
  let s := s ++ " " ++ a
  let s := if e ≠ "" then s ++ " " ++ e else s
  let s := if svcs ≠ [] then s ++ " " ++ String.intercalate " " svcs else s
  let s := if c ≠ "" then s ++ " " ++ c else s
  s

end Weagle

namespace Weagle

theorem splitCh_ne_nil (l : List Char) : splitCh l ≠ [] := by
  induction l with
  | nil => simp [splitCh]
  | cons c cs ih =>
    by_cases hc : c = ' '
    · simp [splitCh, hc]
    · simp only [splitCh, hc, if_false, ite_false]
      cases h : splitCh cs <;> simp

theorem splitCh_append_space (xs ys : List Char) :
    splitCh (xs ++ ' ' :: ys) = splitCh xs ++ splitCh ys := by
  induction xs with
  | nil => simp [splitCh]
  | cons c cs ih =>
    by_cases hc : c = ' '
    · simp [splitCh, hc, ih]
    · simp only [List.cons_append, splitCh, hc, ite_false, if_false, List.append_eq]
      rw [ih]
      cases h : splitCh cs with
      | nil => exact absurd h (splitCh_ne_nil cs)
      | cons t ts => simp [h]

theorem splitCh_noSpace (l : List Char) (h : ∀ c ∈ l, c ≠ ' ') : splitCh l = [l] := by
  induction l with
  | nil => rfl
  | cons c cs ih =>
    have hc : c ≠ ' ' := h c (by simp)
    have hcs := ih (fun d hd => h d (by simp [hd]))
    simp [splitCh, hc, hcs]

theorem ctL_append (t xs ys : List Char) :
    ctL t (xs ++ ' ' :: ys) = ctL t xs + ctL t ys := by
  simp [ctL, splitCh_append_space, List.filter_append]

theorem ct_app (t x y : String) :
    countTok t (x ++ " " ++ y) = countTok t x + countTok t y := by
  have h : (x ++ " " ++ y).data = x.data ++ ' ' :: y.data := by
    simp [String.data_append]
  simp only [countTok, h]
  exact ctL_append _ _ _

theorem countTok_single (t s : String) (h : splitCh s.data = [s.data]) :
    countTok t s = if t = s then 1 else 0 := by
  unfold countTok ctL
  rw [h]
  by_cases he : t = s
  · subst he; simp
  · have hne : (s.data == t.data) = false := by
      simp only [beq_eq_false_iff_ne, ne_eq]
      exact fun hd => he (String.ext hd).symm
    simp [List.filter, hne, he]

theorem compose_ok (env : Option String) (wh : Bool) (a f : String)
    (svcs : List String) (v : Nat) (e c n : String)
    (h : Main.is_truthy env = Except.ok wh) :
    Main.docker_compose_cmd env a f svcs v e c n
      = Except.ok (composeStrWith "docker-compose" a f svcs v e c n) := by
  unfold Main.docker_compose_cmd
  rw [h]
  cases wh <;> rfl

theorem composeOld_ok (env : Option String) (wh : Bool) (a f : String)
    (svcs : List String) (v : Nat) (e c n : String)
    (h : MainOld.is_truthy env = Except.ok wh) :
    MainOld.docker_compose_cmd env a f svcs v e c n
      = Except.ok (composeStrWith (if wh then "docker-compose" else "docker compose")
          a f svcs v e c n) := by
  unfold MainOld.docker_compose_cmd
  rw [h]
  cases wh <;> rfl

theorem countTok_base (t base n f : String) :
    countTok t (base ++ " --project-name " ++ n ++ " -f " ++ f)
      = countTok t base + countTok t "--project-name" + countTok t n
        + countTok t "-f" + countTok t f := by
  have h : (base ++ " --project-name " ++ n ++ " -f " ++ f).data
      = base.data ++ ' ' :: ("--project-name".data ++ ' ' :: (n.data ++ ' ' :: ("-f".data ++ ' ' :: f.data))) := by
    have h1 : (" --project-name " : String).data = ' ' :: "--project-name".data ++ [' '] := by decide
    have h2 : (" -f " : String).data = ' ' :: "-f".data ++ [' '] := by decide
    simp [String.data_append, h1, h2]
  simp only [countTok, h, ctL_append]
  omega

theorem ct_verbose (t x : String) :
    countTok t (x ++ " --verbose") = countTok t x + countTok t "--verbose" := by
  have h : (x ++ " --verbose").data = x.data ++ ' ' :: "--verbose".data := by
    have h1 : (" --verbose" : String).data = ' ' :: "--verbose".data := by decide
    simp [String.data_append, h1]
  simp only [countTok, h, ctL_append]

theorem countTok_composeStrWith (t base a f : String) (svcs : List String)
    (v : Nat) (e c n : String) :
    countTok t (composeStrWith base a f svcs v e c n)
      = countTok t base + countTok t "--project-name" + countTok t n
        + countTok t "-f" + countTok t f
        + (if v ≠ 0 then countTok t "--verbose" else 0)
        + countTok t a
        + (if e ≠ "" then countTok t e else 0)
        + (if svcs ≠ [] then countTok t (String.intercalate " " svcs) else 0)
        + (if c ≠ "" then countTok t c else 0) := by
  unfold composeStrWith
  by_cases hv : v ≠ 0 <;> by_cases he : e ≠ "" <;> by_cases hs : svcs ≠ [] <;> by_cases hc : c ≠ "" <;>
    simp [hv, he, hs, hc, ct_app, ct_verbose, countTok_base]

theorem composeStrWith_spec (base n f : String) (v : Nat) (a e : String)
    (svcs : List String) (c : String) :
    composeStrWith base a f svcs v e c n
      = Spec.composeCmdSpec base n f (decide (v ≠ 0)) a e svcs c := by
  unfold composeStrWith Spec.composeCmdSpec
  simp only [decide_eq_true_eq]
  split_ifs <;> simp only [String.append_assoc, String.append_empty, String.empty_append]

end Weagle

namespace Weagle

/-- C1: the compose command rendered by the builder used by
run_docker_compose_cmd, at the invocation of the scenario, is the
hyphenated string, not the space-separated one the spec names; the
main.old.py builder produces exactly the string the spec names. -/
theorem c1_compose_scenario_renders_hyphenated :
    Main.docker_compose_cmd none "up" "./projects/project_01/docker-compose.yml" ["web"] 1 "" "" "weagle"
      = Except.ok "docker-compose --project-name weagle -f ./projects/project_01/docker-compose.yml --verbose up web"
    ∧ (Main.run_docker_compose_cmd (fun _ => true) (fun _ => 0) none
        "./projects/project_01/docker-compose.yml" "up" ["web"] 1 "" "" "start").1.contains
        (Event.spawn "docker-compose --project-name weagle -f ./projects/project_01/docker-compose.yml --verbose up web") = true
    ∧ MainOld.docker_compose_cmd none "up" "./projects/project_01/docker-compose.yml" ["web"] 1 "" "" "weagle"
      = Except.ok "docker compose --project-name weagle -f ./projects/project_01/docker-compose.yml --verbose up web"
    ∧ ("docker-compose --project-name weagle -f ./projects/project_01/docker-compose.yml --verbose up web" : String)
      ≠ "docker compose --project-name weagle -f ./projects/project_01/docker-compose.yml --verbose up web" :=
  ⟨rfl, rfl, rfl, by decide⟩

/-- C2: for every input on which the with-hash flag parses, the command
built by docker_compose_cmd is exactly the fixed-order concatenation the
spec describes (base token, project-name flag, file flag, optional verbose
flag, action, extra flags, joined services, sub-command), both in main.py
and in main.old.py. -/
theorem c2_compose_cmd_matches_spec_order (env₁ env₂ : Option String)
    (wh₁ wh₂ : Bool) (a f : String) (svcs : List String) (v : Nat)
    (e c n : String)
    (h₁ : Main.is_truthy env₁ = Except.ok wh₁)
    (h₂ : MainOld.is_truthy env₂ = Except.ok wh₂) :
    Main.docker_compose_cmd env₁ a f svcs v e c n
      = Except.ok (Spec.composeCmdSpec "docker-compose" n f (decide (v ≠ 0)) a e svcs c)
    ∧ MainOld.docker_compose_cmd env₂ a f svcs v e c n
      = Except.ok (Spec.composeCmdSpec (if wh₂ then "docker-compose" else "docker compose")
          n f (decide (v ≠ 0)) a e svcs c) := by
  constructor
  · rw [compose_ok env₁ wh₁ a f svcs v e c n h₁, composeStrWith_spec]
  · rw [composeOld_ok env₂ wh₂ a f svcs v e c n h₂, composeStrWith_spec]

/-- Witness for C2 at a concrete invocation. -/
theorem c2_witness :
    Main.is_truthy none = Except.ok false
    ∧ MainOld.is_truthy none = Except.ok false
    ∧ Main.docker_compose_cmd none "up" "x.yml" ["web"] 1 "" "" "weagle"
      = Except.ok (Spec.composeCmdSpec "docker-compose" "weagle" "x.yml" (decide ((1 : Nat) ≠ 0)) "up" "" ["web"] "")
    ∧ MainOld.docker_compose_cmd none "up" "x.yml" ["web"] 1 "" "" "weagle"
      = Except.ok (Spec.composeCmdSpec (if false then "docker-compose" else "docker compose")
          "weagle" "x.yml" (decide ((1 : Nat) ≠ 0)) "up" "" ["web"] "") :=
  ⟨rfl, rfl,
    (c2_compose_cmd_matches_spec_order none none false false "up" "x.yml" ["web"] 1 "" "" "weagle" rfl rfl).1,
    (c2_compose_cmd_matches_spec_order none none false false "up" "x.yml" ["web"] 1 "" "" "weagle" rfl rfl).2⟩

/-- C3 (amended): main.py run_docker_compose_cmd, on a missing compose
file, logs the error and aborts with exit status 1 without any process
spawn. -/
theorem c3_main_missing_file_no_spawn (fs : String → Bool) (os : String → Int)
    (env : Option String) (filename action : String) (svcs : List String)
    (v : Nat) (c e tn : String) (h : fs filename = false) :
    (Main.run_docker_compose_cmd fs os env filename action svcs v c e tn).2
      = Except.error (RunErr.exit 1)
    ∧ ((Main.run_docker_compose_cmd fs os env filename action svcs v c e tn).1.all
        (fun ev => !ev.isSpawn)) = true := by
  constructor <;> simp [Main.run_docker_compose_cmd, h, Event.isSpawn]

/-- Witness for C3 at a concrete missing file. -/
theorem c3_witness :
    ((fun _ => false) "x.yml" : Bool) = false
    ∧ (Main.run_docker_compose_cmd (fun _ => false) (fun _ => 0) none "x.yml" "up" [] 0 "" "" "").2
      = Except.error (RunErr.exit 1)
    ∧ ((Main.run_docker_compose_cmd (fun _ => false) (fun _ => 0) none "x.yml" "up" [] 0 "" "" "").1.all
        (fun ev => !ev.isSpawn)) = true :=
  ⟨rfl,
    (c3_main_missing_file_no_spawn (fun _ => false) (fun _ => 0) none "x.yml" "up" [] 0 "" "" "" rfl).1,
    (c3_main_missing_file_no_spawn (fun _ => false) (fun _ => 0) none "x.yml" "up" [] 0 "" "" "" rfl).2⟩

/-- C3 counterexample: the docker_utils.py runner never consults the
filesystem, so even when the compose file does not exist it spawns the
child process and reports success instead of a configuration error. -/
theorem c3_counterexample :
    ((fun _ => false) "projects/project_01/docker-compose.yml" : Bool) = false
    ∧ ((DockerUtils.run_docker_compose_cmd (fun _ => false) (fun _ => 0) "up"
        "projects/project_01/docker-compose.yml" ["web"] false "start" "").1.any Event.isSpawn) = true
    ∧ (DockerUtils.run_docker_compose_cmd (fun _ => false) (fun _ => 0) "up"
        "projects/project_01/docker-compose.yml" ["web"] false "start" "").2 = Except.ok () :=
  ⟨rfl, rfl, rfl⟩

/-- C4 (amended): main.py runCmd always returns the completed process
carrying the exit code of the child verbatim, logs success exactly when
the exit code is 0, and logs failure exactly when it is non-zero. -/
theorem c4_main_runCmd_exit_policy (os : String → Int) (exec_cmd task_name : String) :
    (Main.runCmd os exec_cmd task_name).2.returncode = os exec_cmd
    ∧ (Event.log ((if task_name ≠ "" then task_name else exec_cmd) ++ " completed successfully") "good"
        ∈ (Main.runCmd os exec_cmd task_name).1 ↔ os exec_cmd = 0)
    ∧ (Event.log ((if task_name ≠ "" then task_name else exec_cmd) ++ " failed") "error"
        ∈ (Main.runCmd os exec_cmd task_name).1 ↔ os exec_cmd ≠ 0) := by
  by_cases h0 : os exec_cmd = 0 <;>
    simp [Main.runCmd, h0]

/-- C4 counterexample: the docker_utils.py runner, run with check=True, on
a non-zero exit raises CalledProcessError instead of returning the result,
and logs neither success nor failure. -/
theorem c4_counterexample :
    DockerUtils.runCmd (fun _ => 1) "docker network ls" "net ls" false
      = ([Event.spawn "docker network ls"], Except.error (RunErr.calledProcessError 1)) :=
  rfl

/-- C5 (amended): with an empty service list, the command built by
main.py docker_compose_cmd is exactly the concatenation with no service
segment at all, hence no empty-string artifact where the list would go. -/
theorem c5_main_empty_services_no_segment (env : Option String) (wh : Bool)
    (a f : String) (v : Nat) (e c n : String)
    (h : Main.is_truthy env = Except.ok wh) :
    Main.docker_compose_cmd env a f [] v e c n
      = Except.ok ("docker-compose --project-name " ++ n ++ " -f " ++ f
          ++ (if v ≠ 0 then " --verbose" else "") ++ " " ++ a
          ++ (if e ≠ "" then " " ++ e else "")
          ++ (if c ≠ "" then " " ++ c else "")) := by
  rw [compose_ok env wh a f [] v e c n h]
  congr 1
  unfold composeStrWith
  split_ifs <;>
    first
    | (exact absurd rfl (by assumption))
    | (simp only [String.append_empty, String.append_assoc]; rfl)

/-- Witness for C5 at a concrete invocation. -/
theorem c5_witness :
    Main.is_truthy none = Except.ok false
    ∧ Main.docker_compose_cmd none "up" "x.yml" [] 0 "" "" "weagle"
      = Except.ok ("docker-compose --project-name " ++ "weagle" ++ " -f " ++ "x.yml"
          ++ (if (0 : Nat) ≠ 0 then " --verbose" else "") ++ " " ++ "up"
          ++ (if ("" : String) ≠ "" then " " ++ "" else "")
          ++ (if ("" : String) ≠ "" then " " ++ "" else "")) :=
  ⟨rfl, c5_main_empty_services_no_segment none false "up" "x.yml" 0 "" "" "weagle" rfl⟩

/-- C5 counterexample: the docker_utils.py builder interpolates the empty
service list and empty extra options unconditionally, so with an empty
service list the spawned command carries doubled and trailing spaces. -/
theorem c5_counterexample :
    (DockerUtils.run_docker_compose_cmd (fun _ => true) (fun _ => 0) "up"
        "projects/project_01/docker-compose.yml" [] false "start" "").1
      = [Event.spawn "docker-compose -f projects/project_01/docker-compose.yml up  "]
    ∧ hasDoubleSpace ("docker-compose -f projects/project_01/docker-compose.yml up  ").data = true
    ∧ ("docker-compose -f projects/project_01/docker-compose.yml up  ").data.getLast? = some ' ' :=
  ⟨rfl, by decide, by decide⟩

/-- C6: the DockerService network builder renders the create action with
the given name, driver and subnet exactly as the spec scenario states. -/
theorem c6_network_create_renders :
    DockerService.manage_network "create" "weagle-network" "bridge" "192.168.1.0/24"
      = "docker network create --driver bridge --subnet 192.168.1.0/24 weagle-network" :=
  rfl

/-- C7: in main.py the with-hash flag has no effect because both branches
of the conditional build the same hyphenated string, so the falsy branch
does not produce the space-separated form; in main.old.py the flag really
selects between the two forms. -/
theorem c7_with_hash_flag_ineffective_in_main :
    Main.docker_compose_cmd (some "false") "up" "f.yml" [] 0 "" "" "weagle"
      = Main.docker_compose_cmd (some "true") "up" "f.yml" [] 0 "" "" "weagle"
    ∧ Main.docker_compose_cmd (some "false") "up" "f.yml" [] 0 "" "" "weagle"
      = Except.ok ("docker-compose" ++ " --project-name weagle -f f.yml up")
    ∧ MainOld.docker_compose_cmd (some "false") "up" "f.yml" [] 0 "" "" "weagle"
      = Except.ok ("docker compose" ++ " --project-name weagle -f f.yml up")
    ∧ MainOld.docker_compose_cmd (some "true") "up" "f.yml" [] 0 "" "" "weagle"
      = Except.ok ("docker-compose" ++ " --project-name weagle -f f.yml up")
    ∧ ("docker-compose" : String) ≠ "docker compose" :=
  ⟨rfl, rfl, rfl, rfl, by decide⟩

end Weagle

namespace Weagle

/-- C8 (amended): in the command built by main.py docker_compose_cmd, each
enabled flag occurs exactly once as a whitespace-delimited token and the
action token occurs exactly once, provided the action is a space-free
token distinct from the fixed tokens and neither the action nor the flag
tokens occur inside the name, file path, extra options, services, or
sub-command. -/
theorem c8_flags_and_action_unique (env : Option String) (wh : Bool)
    (a f : String) (svcs : List String) (v : Nat) (e c n : String)
    (henv : Main.is_truthy env = Except.ok wh)
    (hasp : ∀ ch ∈ a.data, ch ≠ ' ')
    (h1 : a ≠ "docker-compose") (h2 : a ≠ "--project-name")
    (h3 : a ≠ "-f") (h4 : a ≠ "--verbose")
    (hfree : ∀ t ∈ ["--project-name", "-f", "--verbose", a],
      countTok t n = 0 ∧ countTok t f = 0 ∧ countTok t e = 0
        ∧ countTok t (String.intercalate " " svcs) = 0 ∧ countTok t c = 0) :
    ∀ R, Main.docker_compose_cmd env a f svcs v e c n = Except.ok R →
      countTok "--project-name" R = 1 ∧ countTok "-f" R = 1
      ∧ countTok "--verbose" R = (if v ≠ 0 then 1 else 0)
      ∧ countTok a R = 1 := by
  intro R hR
  rw [compose_ok env wh a f svcs v e c n henv] at hR
  injection hR with hR
  subst hR
  have hsingle : splitCh a.data = [a.data] := splitCh_noSpace a.data hasp
  obtain ⟨hn1, hf1, he1, hs1, hc1⟩ := hfree "--project-name" (by simp)
  obtain ⟨hn2, hf2, he2, hs2, hc2⟩ := hfree "-f" (by simp)
  obtain ⟨hn3, hf3, he3, hs3, hc3⟩ := hfree "--verbose" (by simp)
  obtain ⟨hn4, hf4, he4, hs4, hc4⟩ := hfree a (by simp)
  have s1 : countTok "--project-name" a = 0 := by
    rw [countTok_single _ _ hsingle, if_neg (fun hh => h2 hh.symm)]
  have s2 : countTok "-f" a = 0 := by
    rw [countTok_single _ _ hsingle, if_neg (fun hh => h3 hh.symm)]
  have s3 : countTok "--verbose" a = 0 := by
    rw [countTok_single _ _ hsingle, if_neg (fun hh => h4 hh.symm)]
  have s4 : countTok a "docker-compose" = 0 := by
    rw [countTok_single _ _ (by decide), if_neg h1]
  have s5 : countTok a "--project-name" = 0 := by
    rw [countTok_single _ _ (by decide), if_neg h2]
  have s6 : countTok a "-f" = 0 := by
    rw [countTok_single _ _ (by decide), if_neg h3]
  have s7 : countTok a "--verbose" = 0 := by
    rw [countTok_single _ _ (by decide), if_neg h4]
  have s8 : countTok a a = 1 := by
    rw [countTok_single _ _ hsingle, if_pos rfl]
  refine ⟨?_, ?_, ?_, ?_⟩ <;> rw [countTok_composeStrWith] <;>
    simp [s1, s2, s3, s4, s5, s6, s7, s8, hn1, hf1, he1, hs1, hc1, hn2, hf2, he2, hs2, hc2,
      hn3, hf3, he3, hs3, hc3, hn4, hf4, he4, hs4, hc4,
      (by decide : countTok "--project-name" "docker-compose" = 0),
      (by decide : countTok "--project-name" "--project-name" = 1),
      (by decide : countTok "--project-name" "-f" = 0),
      (by decide : countTok "--project-name" "--verbose" = 0),
      (by decide : countTok "-f" "docker-compose" = 0),
      (by decide : countTok "-f" "--project-name" = 0),
      (by decide : countTok "-f" "-f" = 1),
      (by decide : countTok "-f" "--verbose" = 0),
      (by decide : countTok "--verbose" "docker-compose" = 0),
      (by decide : countTok "--verbose" "--project-name" = 0),
      (by decide : countTok "--verbose" "-f" = 0),
      (by decide : countTok "--verbose" "--verbose" = 1)]

/-- Witness for C8 at a concrete invocation. -/
theorem c8_witness :
    Main.is_truthy none = Except.ok false
    ∧ Main.docker_compose_cmd none "up" "compose.yml" ["web", "db"] 1 "-d" "" "weagle"
      = Except.ok "docker-compose --project-name weagle -f compose.yml --verbose up -d web db"
    ∧ countTok "--project-name" "docker-compose --project-name weagle -f compose.yml --verbose up -d web db" = 1
    ∧ countTok "-f" "docker-compose --project-name weagle -f compose.yml --verbose up -d web db" = 1
    ∧ countTok "--verbose" "docker-compose --project-name weagle -f compose.yml --verbose up -d web db" = (if (1 : Nat) ≠ 0 then 1 else 0)
    ∧ countTok "up" "docker-compose --project-name weagle -f compose.yml --verbose up -d web db" = 1 := by
  have h := c8_flags_and_action_unique none false "up" "compose.yml" ["web", "db"] 1 "-d" "" "weagle"
    rfl (by decide) (by decide) (by decide) (by decide) (by decide) (by decide)
    "docker-compose --project-name weagle -f compose.yml --verbose up -d web db" rfl
  exact ⟨rfl, rfl, h.1, h.2.1, h.2.2.1, h.2.2.2⟩

/-- C8 counterexample: with the action token absent from the extra flags,
services and sub-command as the claim requires, extra flags that repeat an
enabled flag still get through, and the built command then contains the
verbose flag twice. -/
theorem c8_counterexample :
    countTok "up" "--verbose" = 0
    ∧ countTok "up" (String.intercalate " " ([] : List String)) = 0
    ∧ countTok "up" "" = 0
    ∧ Main.docker_compose_cmd none "up" "x.yml" [] 1 "--verbose" "" "weagle"
      = Except.ok "docker-compose --project-name weagle -f x.yml --verbose up --verbose"
    ∧ countTok "--verbose" "docker-compose --project-name weagle -f x.yml --verbose up --verbose" = 2 :=
  ⟨by decide, by decide, by decide, rfl, by decide⟩

/-- C9: for every network action other than create, the DockerService
network command is exactly the fixed prefix followed by the action token
and is independent of the name, driver and subnet arguments. -/
theorem c9_non_create_ignores_network_args (action n d s : String)
    (h : action ≠ "create") :
    DockerService.manage_network action n d s = "docker network " ++ action
    ∧ ∀ n₂ d₂ s₂, DockerService.manage_network action n₂ d₂ s₂
        = DockerService.manage_network action n d s := by
  constructor
  · simp [DockerService.manage_network, h]
  · intro n₂ d₂ s₂
    simp [DockerService.manage_network, h]

/-- Witness for C9 at the connect action. -/
theorem c9_witness :
    (("connect" : String) ≠ "create")
    ∧ DockerService.manage_network "connect" "weagle-network" "bridge" "192.168.1.0/24"
        = "docker network " ++ "connect"
    ∧ DockerService.manage_network "connect" "x" "y" "z"
        = DockerService.manage_network "connect" "weagle-network" "bridge" "192.168.1.0/24" := by
  have h : ("connect" : String) ≠ "create" := by decide
  exact ⟨h,
    (c9_non_create_ignores_network_args "connect" "weagle-network" "bridge" "192.168.1.0/24" h).1,
    (c9_non_create_ignores_network_args "connect" "weagle-network" "bridge" "192.168.1.0/24" h).2 "x" "y" "z"⟩

/-- C10: main.py strtobool rejects on and off with a ValueError while the
main.old.py strtobool maps them to true and false, so main.py flag parsing
aborts on those environment values; moreover main.py strtobool accepts
exactly the lowercase forms true/t/yes/y/1 and false/f/no/n/0. -/
theorem c10_strtobool_on_off_divergence :
    Main.strtobool "on" = Except.error "on is not a valid boolean value"
    ∧ Main.strtobool "off" = Except.error "off is not a valid boolean value"
    ∧ MainOld.strtobool "on" = Except.ok true
    ∧ MainOld.strtobool "off" = Except.ok false
    ∧ Main.is_truthy (some "on") = Except.error "on is not a valid boolean value"
    ∧ Main.strtobool "TRUE" = Except.ok true
    ∧ Main.strtobool "OFF" = Except.error "off is not a valid boolean value"
    ∧ (∀ s : String,
        (Main.strtobool s = Except.ok true ↔ strLower s ∈ ["true", "t", "yes", "y", "1"])
        ∧ (Main.strtobool s = Except.ok false ↔ strLower s ∈ ["false", "f", "no", "n", "0"])) := by
  refine ⟨rfl, rfl, rfl, rfl, rfl, rfl, rfl, ?_⟩
  intro s
  by_cases hT : strLower s ∈ ["true", "t", "yes", "y", "1"]
  · have hF : strLower s ∉ ["false", "f", "no", "n", "0"] := by
      have hh := hT
      simp only [List.mem_cons, List.not_mem_nil, or_false] at hh
      rcases hh with h | h | h | h | h <;> simp [h]
    simp [Main.strtobool, hT, hF]
  · by_cases hF : strLower s ∈ ["false", "f", "no", "n", "0"]
    · simp [Main.strtobool, hT, hF]
    · simp [Main.strtobool, hT, hF]

end Weagle
